import Mathlib

/-!
Verification of the `DebugViewModel` component
(`packages/debug/src/browser/view/debug-view-model.ts`).

The view-model keeps an insertion-ordered set of debug sessions
(a JS `Set<DebugSession>`, modelled as a duplicate-free list in
insertion order), a list of watch expressions, and derives the
current session / thread / frame from the injected session manager.
Emissions of the `onDidChange` ("changed") and
`onDidChangeWatchExpressions` signals are modelled by returning the
number of synchronous `fire` calls an operation performs.
-/

namespace DebugViewModelSpec

/-- A stack frame handle; opaque for this development. -/
structure DebugStackFrame where
  frameId : Nat
deriving DecidableEq, Repr

/-- A thread handle with its optionally selected frame
(`DebugThread.currentFrame`). -/
structure DebugThread where
  threadId : Nat
  currentFrame : Option DebugStackFrame
deriving DecidableEq, Repr

/-- Modelled from the spec: the session lifecycle state enum
(`DebugState` from `debug-session.ts`, outside the supplied sources).
The spec names an "inactive" sentinel; in the source enum `Inactive`
is the first member (numeric value 0, hence falsy in JS). -/
inductive DebugState where
  | Inactive
  | Initializing
  | Running
  | Stopped
deriving DecidableEq, Repr

/-- Modelled from the spec: a debug session handle
(`DebugSession` from `debug-session.ts`, outside the supplied sources).
The view-model reads its `id`, `label`, lifecycle `state`, selected
`currentThread` and launch `options`; sessions are compared by
identity, modelled by structural equality of handles. -/
structure DebugSession where
  id : String
  label : String
  state : DebugState
  currentThread : Option DebugThread
  options : Nat
deriving DecidableEq, Repr

/-- Modelled from the spec: a watch expression handle
(`DebugWatchExpression`, outside the supplied sources); the view-model
reads its `expression` text after the interactive `open()` step. -/
structure DebugWatchExpression where
  expression : String
deriving DecidableEq, Repr

/-- The mutable state of a `DebugViewModel`: the session set
(`_sessions`, insertion-ordered) and the watch-expression list
(`_watchExpressions`). -/
structure DebugViewModel where
  sessions : List DebugSession
  watchExpressions : List DebugWatchExpression
deriving DecidableEq, Repr

/-- JS `Set.add`: no-op when the element is already present (it keeps
its original insertion position), otherwise append at the end. -/
def setAdd (l : List DebugSession) (s : DebugSession) : List DebugSession :=
  if s ∈ l then l else l ++ [s]

/-- `get session()`: the first session in insertion order, i.e.
`this.sessions.next().value`. -/
def session (m : DebugViewModel) : Option DebugSession :=
  m.sessions.head?

/-- `get sessionCount()`: `this._sessions.size`. -/
def sessionCount (m : DebugViewModel) : Nat :=
  m.sessions.length

/-- `has(session)`: `!!session && this._sessions.has(session)`. -/
def has (m : DebugViewModel) (s : Option DebugSession) : Bool :=
  match s with
  | none => false
  | some s => s ∈ m.sessions

/-- `push(session)`: return unchanged if the session is already in the
set; otherwise add it and fire "changed". The second component counts
the `fireDidChange` calls. -/
def push (m : DebugViewModel) (s : DebugSession) : DebugViewModel × Nat :=
  if s ∈ m.sessions then (m, 0)
  else ({ m with sessions := m.sessions ++ [s] }, 1)

/-- `delete(session)`: `Set.delete` removes the session if present and
returns whether it did; on removal fire "changed". Components: new
state, the boolean return value, the `fireDidChange` count. -/
def delete (m : DebugViewModel) (s : DebugSession) : DebugViewModel × Bool × Nat :=
  if s ∈ m.sessions then
    ({ m with sessions := m.sessions.erase s }, true, 1)
  else (m, false, 0)

/-- `get currentSession()`: the manager's current session when it
belongs to this view (`this.has(currentSession) && currentSession`),
otherwise the first session of the set (`|| this.session`). The
manager's current session is passed in as `mgr`. -/
def currentSession (mgr : Option DebugSession) (m : DebugViewModel) :
    Option DebugSession :=
  if has m mgr then mgr else session m

/-- `get id()`: `this.session && this.session.id || '-1'`; the empty
string is falsy in JS. -/
def idGetter (m : DebugViewModel) : String :=
  match session m with
  | none => "-1"
  | some s => if s.id = "" then "-1" else s.id

/-- `get label()`: `this.session && this.session.label || 'Unknown
Session'`; the empty string is falsy in JS. -/
def labelGetter (m : DebugViewModel) : String :=
  match session m with
  | none => "Unknown Session"
  | some s => if s.label = "" then "Unknown Session" else s.label

/-- `get state()`: `currentSession && currentSession.state ||
DebugState.Inactive`. `DebugState.Inactive` has numeric value 0, so a
present session whose own state is `Inactive` also falls through the
`||` to the sentinel (which is the same value). -/
def state (mgr : Option DebugSession) (m : DebugViewModel) : DebugState :=
  match currentSession mgr m with
  | none => DebugState.Inactive
  | some s =>
    match s.state with
    | DebugState.Inactive => DebugState.Inactive
    | st => st

/-- `get currentThread()`: `currentSession && currentSession.currentThread`. -/
def currentThread (mgr : Option DebugSession) (m : DebugViewModel) :
    Option DebugThread :=
  (currentSession mgr m).bind DebugSession.currentThread

/-- `get currentFrame()`: `currentThread && currentThread.currentFrame`. -/
def currentFrame (mgr : Option DebugSession) (m : DebugViewModel) :
    Option DebugStackFrame :=
  (currentThread mgr m).bind DebugThread.currentFrame

/-- The `onDidChangeActiveDebugSession` handler installed by `init()`:
fires "changed" exactly when `this.has(previous) && !this.has(current)`.
Returns the `fireDidChange` count. -/
def activeSessionChangedEmits (m : DebugViewModel)
    (previous current : Option DebugSession) : Nat :=
  if has m previous ∧ ¬ has m current then 1 else 0

/-- A call to `push` or to `delete` on the session set. -/
inductive SessionOp where
  | push (s : DebugSession)
  | delete (s : DebugSession)
deriving DecidableEq, Repr

/-- Execute one `SessionOp`: new state, `fireDidChange` count, and the
boolean result for a `delete` call (`none` for a `push` call, which
returns void). -/
def stepOp (m : DebugViewModel) : SessionOp → DebugViewModel × Nat × Option Bool
  | .push s => let r := push m s; (r.1, r.2, none)
  | .delete s => let r := delete m s; (r.1, r.2.2, some r.2.1)

/-- Run a sequence of `push`/`delete` calls, collecting for each call
its `fireDidChange` count and its `delete` return value. -/
def runOps (m : DebugViewModel) : List SessionOp → DebugViewModel × List (Nat × Option Bool)
  | [] => (m, [])
  | op :: ops =>
    let r := stepOp m op
    let rest := runOps r.1 ops
    (rest.1, r.2 :: rest.2)

/-- From the spec's words: a call "actually alters set membership" when
it pushes an absent session or deletes a present one. -/
def altersMembership (m : DebugViewModel) : SessionOp → Bool
  | .push s => !(decide (s ∈ m.sessions))
  | .delete s => decide (s ∈ m.sessions)

/-- From the spec's words: the expected per-call observation trace —
one "changed" emission exactly for the calls that alter membership, and
`delete` returning whether a removal occurred. -/
def specOpsTrace (m : DebugViewModel) : List SessionOp → List (Nat × Option Bool)
  | [] => []
  | op :: ops =>
    (if altersMembership m op then 1 else 0,
      match op with
      | .push _ => none
      | .delete s => some (decide (s ∈ m.sessions)))
    :: specOpsTrace (stepOp m op).1 ops

/-- `start()`: reads `this.session` (the first session of the set); if
absent, return. Otherwise the manager is asked to start a new session
with `session.options`; if it returns a session, that first session is
deleted from the set, the new one added, and "changed" fired. The
manager call is passed in as `mgrStart`; the result records the new
state, the `fireDidChange` count, and the options the manager was asked
with (`none` when the manager was not called). -/
def start (m : DebugViewModel) (mgrStart : Nat → Option DebugSession) :
    DebugViewModel × Nat × Option Nat :=
  match session m with
  | none => (m, 0, none)
  | some s =>
    match mgrStart s.options with
    | none => (m, 0, some s.options)
    | some newSession =>
      ({ m with sessions := setAdd (m.sessions.erase s) newSession }, 1,
        some s.options)

/-- `restart()`: reads `this.session` (the first session of the set);
if absent, return. Otherwise the manager restarts that session; when
the returned session differs by identity it is swapped into the set
(delete old, `Set.add` new); "changed" is fired unconditionally at the
end. The result records the new state, the `fireDidChange` count, and
the session the manager was asked to restart. -/
def restart (m : DebugViewModel) (mgrRestart : DebugSession → DebugSession) :
    DebugViewModel × Nat × Option DebugSession :=
  match session m with
  | none => (m, 0, none)
  | some s =>
    let newSession := mgrRestart s
    let sessions' :=
      if newSession = s then m.sessions
      else setAdd (m.sessions.erase s) newSession
    ({ m with sessions := sessions' }, 1, some s)

/-- `addWatchExpression(expression)`: a new `DebugWatchExpression` is
created and its interactive `open()` step awaited. Modelled from the
spec: `DebugWatchExpression.open` (outside the supplied sources) is the
interactive edit step, which leaves the expression's text equal to what
the user entered — passed in as `edited`. If that text is empty
(`!watchExpression.expression`, the empty string being falsy) the
expression is discarded and `undefined` returned; otherwise it is
appended to `_watchExpressions`, "watch expressions changed" is fired,
and the expression returned. Components: new state, the
`fireDidChangeWatchExpressions` count, the returned value. -/
def addWatchExpression (m : DebugViewModel) (edited : String) :
    DebugViewModel × Nat × Option DebugWatchExpression :=
  let w : DebugWatchExpression := { expression := edited }
  if w.expression = "" then (m, 0, none)
  else ({ m with watchExpressions := m.watchExpressions ++ [w] }, 1, some w)

/-- `removeWatchExpressions()`: clear the list and fire "watch
expressions changed" when it is non-empty; otherwise do nothing. -/
def removeWatchExpressions (m : DebugViewModel) : DebugViewModel × Nat :=
  if m.watchExpressions.length ≠ 0 then
    ({ m with watchExpressions := [] }, 1)
  else (m, 0)

/-- `removeWatchExpression(expression)`: remove the first entry equal
to the given expression and fire "watch expressions changed" when it is
found (`indexOf` ≠ -1); otherwise do nothing. -/
def removeWatchExpression (m : DebugViewModel) (w : DebugWatchExpression) :
    DebugViewModel × Nat :=
  if w ∈ m.watchExpressions then
    ({ m with watchExpressions := m.watchExpressions.erase w }, 1)
  else (m, 0)

/-- One debounced refresh execution (the body queued on
`refreshWatchExpressionsQueue`): evaluate the watch expressions in list
order, awaiting each; the first evaluation that raises aborts the loop,
and its error is caught and logged. Modelled from the spec:
`DebugWatchExpression.evaluate` (outside the supplied sources) is the
per-expression remote evaluation, passed in as `f`. Returns the list of
expressions actually evaluated (in order) and the logged error, if
any; the function is total, so the error never propagates out of the
cycle. -/
def runCycle (f : DebugWatchExpression → Except String Unit) :
    List DebugWatchExpression → List DebugWatchExpression × Option String
  | [] => ([], none)
  | w :: rest =>
    match f w with
    | .ok _ =>
      let r := runCycle f rest
      (w :: r.1, r.2)
    | .error e => ([w], some e)

/-- The refresh queue: executions are chained one after another on
`refreshWatchExpressionsQueue` (`queue = queue.then(...)`), so the
overall evaluation trace is the concatenation of the cycles' traces,
in FIFO order, with no interleaving. Each queued cycle carries the
evaluator and the expression list it sees when it runs. -/
def runQueue :
    List ((DebugWatchExpression → Except String Unit) × List DebugWatchExpression) →
    List DebugWatchExpression
  | [] => []
  | c :: cs => (runCycle c.1 c.2).1 ++ runQueue cs

/-- Concrete session fixture A. -/
def sessA : DebugSession :=
  { id := "a", label := "A", state := .Running, currentThread := none, options := 1 }

/-- Concrete session fixture B. -/
def sessB : DebugSession :=
  { id := "b", label := "B", state := .Running, currentThread := none, options := 2 }

/-- Concrete session fixture C, used as a manager-created session. -/
def sessC : DebugSession :=
  { id := "c", label := "C", state := .Running, currentThread := none, options := 3 }

/-- Concrete session fixture whose own lifecycle state is the
`Inactive` sentinel (e.g. a terminated session still shown in a view). -/
def sessInactive : DebugSession :=
  { id := "d", label := "D", state := .Inactive, currentThread := none, options := 4 }

/-- A manager `start` stub that always creates `sessC`. -/
def mgrStartC : Nat → Option DebugSession := fun _ => some sessC

/-- Concrete watch-expression fixtures. -/
def we1 : DebugWatchExpression := ⟨"x"⟩

/-- Concrete watch-expression fixture. -/
def we2 : DebugWatchExpression := ⟨"y"⟩

/-- Concrete watch-expression fixture. -/
def we3 : DebugWatchExpression := ⟨"z"⟩

instance {ε α : Type} [DecidableEq ε] [DecidableEq α] :
    DecidableEq (Except ε α) := fun x y =>
  match x, y with
  | .ok a, .ok b =>
    if h : a = b then .isTrue (by rw [h]) else .isFalse (by simp [h])
  | .error a, .error b =>
    if h : a = b then .isTrue (by rw [h]) else .isFalse (by simp [h])
  | .ok _, .error _ => .isFalse (by simp)
  | .error _, .ok _ => .isFalse (by simp)

/-- An evaluator that fails exactly on `we2`. -/
def evalFailW2 : DebugWatchExpression → Except String Unit :=
  fun w => if w = we2 then Except.error "boom" else Except.ok ()

/-- An evaluator that always succeeds. -/
def evalOk : DebugWatchExpression → Except String Unit :=
  fun _ => Except.ok ()

/-- Helper: `currentSession` is absent exactly when the session set is
empty. -/
theorem currentSession_eq_none_iff (mgr : Option DebugSession)
    (m : DebugViewModel) :
    currentSession mgr m = none ↔ m.sessions = [] := by
  cases hmgr : mgr with
  | none =>
    simp [currentSession, has, session, List.head?_eq_none_iff]
  | some s =>
    by_cases hmem : s ∈ m.sessions
    · have hne : m.sessions ≠ [] := by
        intro he
        rw [he] at hmem
        exact absurd hmem (List.not_mem_nil s)
      simp [currentSession, has, hmem, hne]
    · simp [currentSession, has, hmem, session, List.head?_eq_none_iff]

/-- Claim C1, as stated, is false on the code: with session set {A}
and the manager's active session changing from B (not a member) to A
(a member), `currentSession` is A before and after, but the
active-session-changed handler fires zero "changed" signals — not one —
because it only fires when the previous session was a member and the
new one is not. -/
theorem c1_counterexample :
    currentSession (some sessB) ⟨[sessA], []⟩ = some sessA ∧
    currentSession (some sessA) ⟨[sessA], []⟩ = some sessA ∧
    activeSessionChangedEmits ⟨[sessA], []⟩ (some sessB) (some sessA) = 0 ∧
    activeSessionChangedEmits ⟨[sessA], []⟩ (some sessB) (some sessA) ≠ 1 := by
  decide

/-- Claim C1 amended: with session set {a} and the manager's active
session changing from b (not a member) to a, `currentSession` remains a,
and the active-session-changed handler emits zero "changed" signals:
the transition into membership is not reported (the handler fires only
when the previous session is a member and the new one is not). -/
theorem c1_active_session_change (m : DebugViewModel) (a b : DebugSession)
    (hm : m.sessions = [a]) (hb : b ∉ m.sessions) :
    currentSession (some b) m = some a ∧
    currentSession (some a) m = some a ∧
    activeSessionChangedEmits m (some b) (some a) = 0 := by
  have hbm : has m (some b) = false := by
    simp [has, hb]
  have ham : has m (some a) = true := by
    simp [has, hm]
  refine ⟨?_, ?_, ?_⟩
  · simp [currentSession, hbm, session, hm]
  · simp [currentSession, ham]
  · simp [activeSessionChangedEmits, hbm]

/-- Witness for the amended C1 at concrete sessions. -/
theorem c1_active_session_change_witness :
    currentSession (some sessB) ⟨[sessA], []⟩ = some sessA ∧
    currentSession (some sessA) ⟨[sessA], []⟩ = some sessA ∧
    activeSessionChangedEmits ⟨[sessA], []⟩ (some sessB) (some sessA) = 0 :=
  c1_active_session_change ⟨[sessA], []⟩ sessA sessB rfl (by decide)

/-- Claim C2: over any sequence of `push`/`delete` calls from any
state, each call fires "changed" exactly once when it alters set
membership and zero times otherwise, and each `delete` returns whether
a removal occurred: the code's observation trace coincides with the
spec's expected trace. -/
theorem c2_ops_trace (m : DebugViewModel) (ops : List SessionOp) :
    (runOps m ops).2 = specOpsTrace m ops := by
  induction ops generalizing m with
  | nil => rfl
  | cons op ops ih =>
    cases op with
    | push s =>
      by_cases h : s ∈ m.sessions <;>
        simp [runOps, specOpsTrace, stepOp, push, altersMembership, h, ih]
    | delete s =>
      by_cases h : s ∈ m.sessions <;>
        simp [runOps, specOpsTrace, stepOp, delete, altersMembership, h, ih]

/-- Claim C3: `currentSession` is the manager's active session whenever
that session belongs to the view's set; otherwise it is the
first-inserted member; and it is absent exactly when the set is empty. -/
theorem c3_current_session (mgr : Option DebugSession) (m : DebugViewModel) :
    (∀ s, mgr = some s → s ∈ m.sessions → currentSession mgr m = some s) ∧
    ((∀ s, mgr = some s → s ∉ m.sessions) →
      currentSession mgr m = m.sessions.head?) ∧
    (currentSession mgr m = none ↔ m.sessions = []) := by
  refine ⟨?_, ?_, ?_⟩
  · intro s hs hmem
    subst hs
    simp [currentSession, has, hmem]
  · intro h
    cases mgr with
    | none => simp [currentSession, has, session]
    | some s => simp [currentSession, has, session, h s rfl]
  · exact currentSession_eq_none_iff mgr m

/-- Witness for C3 at a concrete state: manager active session B is not
a member, so `currentSession` falls back to the first-inserted A. -/
theorem c3_current_session_witness :
    currentSession (some sessB) ⟨[sessA], []⟩ = some sessA :=
  (c3_current_session (some sessB) ⟨[sessA], []⟩).2.1
    (by intro s hs; cases hs; decide)

/-- Claim C4, as stated, is false on the code: with session set [A, B]
and the manager's active session B (a member, so `currentSession` = B),
`start()` asks the manager with the first-inserted session A's launch
options, not the current session B's, and removes A — B stays in the
set. -/
theorem c4_counterexample :
    currentSession (some sessB) ⟨[sessA, sessB], []⟩ = some sessB ∧
    (start ⟨[sessA, sessB], []⟩ mgrStartC).2.2 = some sessA.options ∧
    (start ⟨[sessA, sessB], []⟩ mgrStartC).2.2 ≠ some sessB.options ∧
    sessB ∈ (start ⟨[sessA, sessB], []⟩ mgrStartC).1.sessions ∧
    sessA ∉ (start ⟨[sessA, sessB], []⟩ mgrStartC).1.sessions := by
  decide

/-- Claim C4 amended: `start()` is a no-op when the session set is
empty; otherwise it asks the manager to start a new session using the
first-inserted session's launch options, and if the manager returns a
session it removes the first-inserted session, adds the new one, and
emits "changed" exactly once; if the manager returns nothing, the set
is unchanged and no signal is emitted. -/
theorem c4_start (m : DebugViewModel) (f : Nat → Option DebugSession) :
    (session m = none → start m f = (m, 0, none)) ∧
    (∀ s, session m = some s →
      (start m f).2.2 = some s.options ∧
      (f s.options = none → (start m f).1 = m ∧ (start m f).2.1 = 0) ∧
      (∀ n, f s.options = some n →
        (start m f).1.sessions = setAdd (m.sessions.erase s) n ∧
        (start m f).2.1 = 1)) := by
  refine ⟨?_, ?_⟩
  · intro h
    simp [start, h]
  · intro s hs
    refine ⟨?_, ?_, ?_⟩
    · cases hf : f s.options <;> simp [start, hs, hf]
    · intro hf
      simp [start, hs, hf]
    · intro n hf
      simp [start, hs, hf]

/-- Witness for the amended C4: starting from the singleton set [A]
with a manager that creates C swaps C in for A and fires "changed"
once. -/
theorem c4_start_witness :
    (start ⟨[sessA], []⟩ mgrStartC).1.sessions =
      setAdd (List.erase [sessA] sessA) sessC ∧
    (start ⟨[sessA], []⟩ mgrStartC).2.1 = 1 :=
  ((c4_start ⟨[sessA], []⟩ mgrStartC).2 sessA rfl).2.2 sessC rfl

/-- Claim C5: `restart()` is a no-op when there is no current session
(equivalently, when the set is empty); otherwise it asks the manager to
restart the existing (first-inserted) session, swaps the returned
session into the set only when it differs by identity from the old one,
and always emits "changed" exactly once at the end, even when the
manager returns the same session object. -/
theorem c5_restart (mgr : Option DebugSession) (m : DebugViewModel)
    (g : DebugSession → DebugSession) :
    (currentSession mgr m = none → restart m g = (m, 0, none)) ∧
    (∀ s, session m = some s →
      (restart m g).2.2 = some s ∧
      (restart m g).2.1 = 1 ∧
      (g s = s → (restart m g).1.sessions = m.sessions) ∧
      (g s ≠ s →
        (restart m g).1.sessions = setAdd (m.sessions.erase s) (g s))) := by
  refine ⟨?_, ?_⟩
  · intro h
    have hempty : m.sessions = [] := (currentSession_eq_none_iff mgr m).mp h
    have hs : session m = none := by
      simp [session, hempty]
    simp [restart, hs]
  · intro s hs
    refine ⟨?_, ?_, ?_, ?_⟩
    · by_cases hg : g s = s <;> simp [restart, hs, hg]
    · by_cases hg : g s = s <;> simp [restart, hs, hg]
    · intro hg
      simp [restart, hs, hg]
    · intro hg
      simp [restart, hs, hg]

/-- Witness for C5: restarting the singleton set [A] with a manager
that returns A itself keeps the set unchanged and still fires "changed"
exactly once. -/
theorem c5_restart_witness :
    (restart ⟨[sessA], []⟩ id).2.1 = 1 ∧
    (restart ⟨[sessA], []⟩ id).1.sessions = [sessA] :=
  ⟨((c5_restart none ⟨[sessA], []⟩ id).2 sessA rfl).2.1,
    ((c5_restart none ⟨[sessA], []⟩ id).2 sessA rfl).2.2.1 rfl⟩

/-- Claim C6, as stated, is false on the code: a view whose only
session is itself in the `Inactive` lifecycle state has a present
`currentSession`, yet the `state` getter returns the `Inactive`
sentinel. -/
theorem c6_counterexample :
    currentSession none ⟨[sessInactive], []⟩ = some sessInactive ∧
    state none ⟨[sessInactive], []⟩ = DebugState.Inactive := by
  decide

/-- Claim C6 amended: the `state` getter returns the `Inactive`
sentinel exactly when `currentSession` is absent or the current
session's own lifecycle state is `Inactive`. -/
theorem c6_state_inactive (mgr : Option DebugSession) (m : DebugViewModel) :
    state mgr m = DebugState.Inactive ↔
      currentSession mgr m = none ∨
        ∃ s, currentSession mgr m = some s ∧ s.state = DebugState.Inactive := by
  unfold state
  cases hc : currentSession mgr m with
  | none => simp
  | some s =>
    cases hs : s.state <;> simp [hs]

/-- Claim C7: `currentThread` and `currentFrame` are chained optional
projections: no current session yields none for both, a current session
with no selected thread yields none for both, and a current thread with
no selected frame yields no frame. -/
theorem c7_optional_chain (mgr : Option DebugSession) (m : DebugViewModel) :
    (currentSession mgr m = none →
      currentThread mgr m = none ∧ currentFrame mgr m = none) ∧
    (∀ s, currentSession mgr m = some s → s.currentThread = none →
      currentThread mgr m = none ∧ currentFrame mgr m = none) ∧
    (∀ t, currentThread mgr m = some t → t.currentFrame = none →
      currentFrame mgr m = none) := by
  refine ⟨?_, ?_, ?_⟩
  · intro h
    simp [currentThread, currentFrame, h]
  · intro s hs ht
    simp [currentThread, currentFrame, hs, ht]
  · intro t ht hf
    simp [currentFrame, ht, hf]

/-- Witness for C7 at the empty view: no current session, so both
projections are none. -/
theorem c7_optional_chain_witness :
    currentThread none ⟨[], []⟩ = none ∧ currentFrame none ⟨[], []⟩ = none :=
  (c7_optional_chain none ⟨[], []⟩).1 rfl

/-- Helper: a cycle over expressions that all evaluate successfully
evaluates every expression, in order, with no error logged. -/
theorem runCycle_all_ok (f : DebugWatchExpression → Except String Unit)
    (es : List DebugWatchExpression) (h : ∀ x ∈ es, f x = Except.ok ()) :
    runCycle f es = (es, none) := by
  induction es with
  | nil => rfl
  | cons w rest ih =>
    have hw : f w = Except.ok () := h w (List.mem_cons_self w rest)
    have hrest : runCycle f rest = (rest, none) :=
      ih fun x hx => h x (List.mem_cons_of_mem w hx)
    simp [runCycle, hw, hrest]

/-- Helper: when the evaluations of `as` succeed and the evaluation of
`b` raises `e`, a cycle over `as ++ b :: cs` evaluates exactly
`as ++ [b]`, logs `e`, and skips `cs`. -/
theorem runCycle_first_err (f : DebugWatchExpression → Except String Unit)
    (as cs : List DebugWatchExpression) (b : DebugWatchExpression) (e : String)
    (hok : ∀ a ∈ as, f a = Except.ok ()) (herr : f b = Except.error e) :
    runCycle f (as ++ b :: cs) = (as ++ [b], some e) := by
  induction as with
  | nil => simp [runCycle, herr]
  | cons a rest ih =>
    have ha : f a = Except.ok () := hok a (List.mem_cons_self a rest)
    have hrest : runCycle f (rest ++ b :: cs) = (rest ++ [b], some e) :=
      ih fun x hx => hok x (List.mem_cons_of_mem a hx)
    simp [runCycle, ha, hrest]

/-- Claim C8: within one refresh cycle the expressions are evaluated
sequentially in list order; when the evaluation of `b` (preceded by
`as`, followed by `cs`) raises, exactly `as ++ [b]` are evaluated and
`cs` is skipped, the error is caught (logged, never re-thrown — the
cycle is total and returns normally); queued cycles run strictly one
after the other, their traces concatenated without interleaving; and a
subsequent trigger with succeeding evaluations evaluates the whole list
again. -/
theorem c8_refresh_cycle (as cs : List DebugWatchExpression)
    (b : DebugWatchExpression) (e : String)
    (f g : DebugWatchExpression → Except String Unit)
    (hok : ∀ a ∈ as, f a = Except.ok ())
    (herr : f b = Except.error e)
    (hgok : ∀ x ∈ as ++ b :: cs, g x = Except.ok ()) :
    runCycle f (as ++ b :: cs) = (as ++ [b], some e) ∧
    runCycle g (as ++ b :: cs) = (as ++ b :: cs, none) ∧
    runQueue [(f, as ++ b :: cs), (g, as ++ b :: cs)] =
      (as ++ [b]) ++ (as ++ b :: cs) := by
  have h1 := runCycle_first_err f as cs b e hok herr
  have h2 := runCycle_all_ok g (as ++ b :: cs) hgok
  refine ⟨h1, h2, ?_⟩
  simp [runQueue, h1, h2]

/-- Witness for C8: with expressions [x, y, z] and an evaluator failing
on y, the first cycle evaluates [x, y] and skips z; the re-triggered
cycle evaluates all three; the queued trace is their concatenation. -/
theorem c8_refresh_cycle_witness :
    runCycle evalFailW2 [we1, we2, we3] = ([we1, we2], some "boom") ∧
    runCycle evalOk [we1, we2, we3] = ([we1, we2, we3], none) ∧
    runQueue [(evalFailW2, [we1, we2, we3]), (evalOk, [we1, we2, we3])] =
      [we1, we2] ++ [we1, we2, we3] :=
  c8_refresh_cycle [we1] [we3] we2 "boom" evalFailW2 evalOk
    (by decide) (by decide) (by decide)

/-- Claim C9: when the interactive edit step leaves the expression text
empty, `addWatchExpression` returns nothing, leaves the whole state
unchanged, and fires no "watch expressions changed" signal; when the
text is non-empty, exactly that one expression is appended, the signal
fires exactly once, and the created expression is returned. -/
theorem c9_add_watch (m : DebugViewModel) (edited : String) :
    (edited = "" → addWatchExpression m edited = (m, 0, none)) ∧
    (edited ≠ "" →
      (addWatchExpression m edited).1.watchExpressions =
        m.watchExpressions ++ [⟨edited⟩] ∧
      (addWatchExpression m edited).1.sessions = m.sessions ∧
      (addWatchExpression m edited).2.1 = 1 ∧
      (addWatchExpression m edited).2.2 = some ⟨edited⟩) := by
  refine ⟨?_, ?_⟩
  · intro h
    simp [addWatchExpression, h]
  · intro h
    simp [addWatchExpression, h]

/-- Witness for C9: an empty edited text leaves the view untouched, a
non-empty one appends exactly one entry with one emission. -/
theorem c9_add_watch_witness :
    addWatchExpression ⟨[], [we1]⟩ "" = (⟨[], [we1]⟩, 0, none) ∧
    (addWatchExpression ⟨[], [we1]⟩ "y").1.watchExpressions = [we1, ⟨"y"⟩] ∧
    (addWatchExpression ⟨[], [we1]⟩ "y").2.1 = 1 :=
  ⟨(c9_add_watch ⟨[], [we1]⟩ "").1 rfl,
    ((c9_add_watch ⟨[], [we1]⟩ "y").2 (by decide)).1,
    ((c9_add_watch ⟨[], [we1]⟩ "y").2 (by decide)).2.2.1⟩

/-- Claim C10: when the session set is empty the `id` getter returns
the sentinel "-1" and the `label` getter returns "Unknown Session"; the
same sentinels are returned when the first session's `id` (resp.
`label`) is the empty string (falsy). -/
theorem c10_id_label (m : DebugViewModel) :
    (session m = none →
      idGetter m = "-1" ∧ labelGetter m = "Unknown Session") ∧
    (∀ s, session m = some s →
      (s.id = "" → idGetter m = "-1") ∧
      (s.label = "" → labelGetter m = "Unknown Session")) := by
  refine ⟨?_, ?_⟩
  · intro h
    simp [idGetter, labelGetter, h]
  · intro s hs
    refine ⟨?_, ?_⟩
    · intro h
      simp [idGetter, hs, h]
    · intro h
      simp [labelGetter, hs, h]

/-- Witness for C10 at the empty view. -/
theorem c10_id_label_witness :
    idGetter ⟨[], []⟩ = "-1" ∧ labelGetter ⟨[], []⟩ = "Unknown Session" :=
  (c10_id_label ⟨[], []⟩).1 rfl

end DebugViewModelSpec
